import Mathlib

/-!
Verification development for the Cartographer mapper (pkg/registrar),
the Runnable reconciler (pkg/controller/runnable) and the
ClusterImageTemplate output model (pkg/templates).

The Go source is shallowly embedded: Kubernetes objects become Lean
structures holding the fields the embedded functions touch, client
List calls become explicit lists held in a `Cluster` record, client
Get calls become an explicit `String → String → Option ServiceAccount`
function (`none` models a failed Get), and `reflect.DeepEqual` becomes
structural equality on the embedded structures.
-/

/-- A reconcile request: `types.NamespacedName` inside `reconcile.Request`. -/
structure Request where
  name : String
  ns : String
deriving DecidableEq, Repr

/-- The fields of `v1alpha1.Workload` the mapper reads: object meta
(name, namespace, labels) and `spec.serviceAccountName`. -/
structure Workload where
  name : String
  ns : String
  labels : List (String × String)
  serviceAccountName : String
deriving DecidableEq, Repr

/-- `v1alpha1.ServiceAccountRef { Name, Namespace }`. -/
structure ServiceAccountRef where
  name : String
  ns : String
deriving DecidableEq, Repr

/-- The fields of `v1alpha1.ClusterSupplyChain` the mapper reads:
name, `spec.selector` (matchLabels), `spec.serviceAccountRef`.
`reflect.DeepEqual` on two supply chains is structural equality here;
the `addGVK` normalisation of TypeMeta is modelled as the identity. -/
structure ClusterSupplyChain where
  name : String
  selector : List (String × String)
  serviceAccountRef : ServiceAccountRef
deriving DecidableEq, Repr

/-- The fields of `corev1.ServiceAccount` the mapper reads: name and
namespace. A zero-valued service account (what a failed `client.Get`
leaves behind) has both fields empty. -/
structure ServiceAccount where
  name : String
  ns : String
deriving DecidableEq, Repr

/-- `rbacv1.Subject { APIGroup, Kind, Name, Namespace }`. -/
structure Subject where
  apiGroup : String
  kind : String
  name : String
  ns : String
deriving DecidableEq, Repr

/-- The fields of `rbacv1.RoleBinding` the mapper reads: namespace,
`roleRef` and `subjects`. -/
structure RoleBinding where
  name : String
  ns : String
  roleRefApiGroup : String
  roleRefKind : String
  roleRefName : String
  subjects : List Subject
deriving DecidableEq, Repr

/-- The fields of `rbacv1.Role` the mapper reads: name and namespace. -/
structure Role where
  name : String
  ns : String
deriving DecidableEq, Repr

/-- The cluster state behind the mapper's `client.List` calls. -/
structure Cluster where
  supplyChains : List ClusterSupplyChain
  workloads : List Workload
  roleBindings : List RoleBinding
deriving DecidableEq, Repr

/-- `client.MatchingLabels(selector)`: an object matches when every
key/value pair of the selector appears in its labels. -/
def labelsMatch (selector labels : List (String × String)) : Bool :=
  selector.all (fun kv => labels.lookup kv.1 == some kv.2)

/-- Modelled from the spec: `repository.BestLabelMatches` is not under
src/. Spec 4.1 / 4.6: a blueprint matches iff its selector evaluates
true on the intent's labels; among all matches the best ones are those
whose selector has the largest cardinality (number of requirements).
The mapper iterates over all returned best matches. -/
def bestLabelMatches (w : Workload) (scs : List ClusterSupplyChain) : List ClusterSupplyChain :=
  let matched := scs.filter (fun sc => labelsMatch sc.selector w.labels)
  let best := (matched.map (fun sc => sc.selector.length)).foldr max 0
  matched.filter (fun sc => sc.selector.length == best)

/-- `Mapper.clusterSupplyChainToWorkloads`: list all supply chains,
list workloads filtered by the chain's selector labels (the chain is
cluster scoped, so `client.InNamespace(sc.Namespace)` with an empty
namespace imposes no restriction), then keep a workload once for every
best label match that is `DeepEqual` to the changed chain. -/
def clusterSupplyChainToWorkloads (cl : Cluster) (sc : ClusterSupplyChain) : List Workload :=
  let workloadList := cl.workloads.filter (fun w => labelsMatch sc.selector w.labels)
  workloadList.flatMap (fun w =>
    ((bestLabelMatches w cl.supplyChains).filter (fun m => m == sc)).map (fun _ => w))

/-- Build the reconcile request for a workload (its name + namespace). -/
def workloadRequest (w : Workload) : Request :=
  { name := w.name, ns := w.ns }

/-- `Mapper.ClusterSupplyChainToWorkloadRequests` (the cast to
ClusterSupplyChain is assumed to succeed): one request per returned
workload. -/
def clusterSupplyChainToWorkloadRequests (cl : Cluster) (sc : ClusterSupplyChain) : List Request :=
  (clusterSupplyChainToWorkloads cl sc).map workloadRequest

/-- `Mapper.serviceAccountToSupplyChains`: the supply chains whose
`spec.serviceAccountRef.name` equals the service account's name. -/
def serviceAccountToSupplyChains (cl : Cluster) (sa : ServiceAccount) : List ClusterSupplyChain :=
  cl.supplyChains.filter (fun sc => sc.serviceAccountRef.name == sa.name)

/-- Insertion into the `map[reconcile.Request]bool` request set:
adding an element that is already present changes nothing. -/
def insertReq (rs : List Request) (r : Request) : List Request :=
  if r ∈ rs then rs else rs ++ [r]

/-- The direct half of `Mapper.ServiceAccountToWorkloadRequests`:
workloads in the service account's namespace whose
`spec.serviceAccountName` equals the service account's name. -/
def directWorkloadRequests (cl : Cluster) (sa : ServiceAccount) : List Request :=
  (cl.workloads.filter (fun w => w.ns == sa.ns && w.serviceAccountName == sa.name)).map
    workloadRequest

/-- The indirect half of `Mapper.ServiceAccountToWorkloadRequests`:
for every supply chain referencing the service account, the workloads
it best-matches that set no service account of their own, subject to
the namespace rule on `serviceAccountRef.Namespace`. -/
def indirectWorkloadRequests (cl : Cluster) (sa : ServiceAccount) : List Request :=
  (serviceAccountToSupplyChains cl sa).flatMap (fun sc =>
    ((clusterSupplyChainToWorkloads cl sc).filter (fun w =>
      w.serviceAccountName == "" &&
        (sc.serviceAccountRef.ns == sa.ns ||
          (sc.serviceAccountRef.ns == "" && w.ns == sa.ns)))).map workloadRequest)

/-- `Mapper.ServiceAccountToWorkloadRequests`: direct matches and
indirect matches accumulated into a request set, then read out. -/
def serviceAccountToWorkloadRequests (cl : Cluster) (sa : ServiceAccount) : List Request :=
  (directWorkloadRequests cl sa ++ indirectWorkloadRequests cl sa).foldl insertReq []

/-- `Mapper.RoleBindingToWorkloadRequests` (the cast to RoleBinding is
assumed to succeed). `get ns name` models `client.Get` of a service
account; `none` is a failed Get, after which the Go code only logs and
carries on with the zero-valued `&corev1.ServiceAccount{}` it
allocated — it does not return. -/
def roleBindingToWorkloadRequests (cl : Cluster)
    (get : String → String → Option ServiceAccount)
    (rb : RoleBinding) : List Request :=
  match rb.subjects.find? (fun s => s.apiGroup == "" && s.kind == "ServiceAccount") with
  | some subject =>
    let sa := match get subject.ns subject.name with
      | some sa => sa
      | none => { name := "", ns := "" }
    serviceAccountToWorkloadRequests cl sa
  | none => []

/-- `Mapper.RoleToWorkloadRequests` (the cast to Role is assumed to
succeed): for every role binding in the role's namespace whose roleRef
names the role, append that binding's workload requests. -/
def roleToWorkloadRequests (cl : Cluster)
    (get : String → String → Option ServiceAccount)
    (role : Role) : List Request :=
  (cl.roleBindings.filter (fun rb =>
    rb.roleRefApiGroup == "" && rb.roleRefKind == "Role" &&
      rb.roleRefName == role.name && rb.ns == role.ns)).flatMap
    (fun rb => roleBindingToWorkloadRequests cl get rb)

/-- A typed template output; the image template only fills `Image`. -/
structure Output where
  image : String
deriving DecidableEq, Repr

/-- `templates.JsonPathError`: wraps the evaluation failure and records
the failing JSONPath expression. -/
structure JsonPathError where
  err : String
  expression : String
deriving DecidableEq, Repr

/-- The observed unstructured content of a stamped object, the shape
the Evaluator interface consumes (`UnstructuredContent()`). -/
def StampedContent : Type := List (String × String)

/-- The Evaluator interface: `EvaluateJsonPath(path, content)` returns
an evaluated value or an error message. -/
def Evaluator : Type := String → StampedContent → Except String String

/-- `clusterImageTemplate.GetOutput`: evaluate `spec.imagePath` against
the stamped object's content; on success wrap the value in
`Output.Image`, on failure return a `JsonPathError` whose expression is
the image path. -/
def clusterImageTemplateGetOutput (imagePath : String) (eval : Evaluator)
    (stamped : StampedContent) : Except JsonPathError Output :=
  match eval imagePath stamped with
  | Except.ok image => Except.ok { image := image }
  | Except.error e => Except.error { err := e, expression := imagePath }

/-- The condition types the Runnable reconciler can add via
`conditionManager.AddPositive`. -/
inductive ConditionType where
  | serviceAccountSecretNotFound
  | clientBuilderError
  | runTemplateMissing
  | templateStampFailure
  | stampedObjectRejectedByAPIServer
  | failedToListCreatedObjects
  | outputPathNotSatisfied
  | unknownError
  | runTemplateReady
deriving DecidableEq, Repr

/-- The error classes `realizer.Realize` can return, as matched by the
type switch in `Reconciler.Reconcile`. For ApplyStampedObjectError the
flag records whether `kerrors.IsForbidden(typedErr.Err)` holds. -/
inductive RealizeError where
  | getRunTemplateError
  | resolveSelectorError
  | stampError
  | applyStampedObjectError (forbidden : Bool)
  | listCreatedObjectsError
  | retrieveOutputError
  | unknownError
deriving DecidableEq, Repr

/-- The condition added and the handledness decided by the type switch
in `Reconciler.Reconcile` for a realizer error: `unhandled` is true
exactly when the switch wraps the error in
`controller.NewUnhandledError`. -/
def dispatchRealizeError : RealizeError → ConditionType × Bool
  | RealizeError.getRunTemplateError => (ConditionType.runTemplateMissing, true)
  | RealizeError.resolveSelectorError => (ConditionType.templateStampFailure, false)
  | RealizeError.stampError => (ConditionType.templateStampFailure, false)
  | RealizeError.applyStampedObjectError forbidden =>
      (ConditionType.stampedObjectRejectedByAPIServer, !forbidden)
  | RealizeError.listCreatedObjectsError => (ConditionType.failedToListCreatedObjects, true)
  | RealizeError.retrieveOutputError => (ConditionType.outputPathNotSatisfied, false)
  | RealizeError.unknownError => (ConditionType.unknownError, true)

/-- `runnable.Status.Outputs`: a possibly nil map from output name to
value (`reflect.DeepEqual` distinguishes a nil map from an empty one,
hence the Option layer). -/
def Outputs : Type := Option (List (String × String))
deriving instance DecidableEq, Repr for Outputs

/-- The fields of `v1alpha1.Runnable.Status` the reconciler touches. -/
structure RunnableStatus where
  conditions : List ConditionType
  observedGeneration : Int
  outputs : Outputs
deriving DecidableEq, Repr

/-- The fields of `v1alpha1.Runnable` the reconciler reads. -/
structure Runnable where
  name : String
  ns : String
  generation : Int
  serviceAccountName : String
  status : RunnableStatus
deriving DecidableEq, Repr

/-- The error `completeReconciliation` can hand back to the runtime:
either the status update itself failed, or the reconcile error was
unhandled (`controller.IsUnhandledError`) and is propagated. A `none`
return is a nil error: the runtime does not requeue with backoff. -/
inductive RecError where
  | statusUpdateError
  | unhandled
deriving DecidableEq, Repr

/-- The reconcile error carried into `completeReconciliation`:
`none` is a nil error, `some u` an error whose unhandled flag is `u`.
`controller.NewUnhandledError` / `controller.IsUnhandledError` are not
under src/; per spec section 7 they wrap an error and test the wrap,
which the Boolean flag models. -/
def finishErr : Option Bool → Option RecError
  | some true => some RecError.unhandled
  | _ => none

/-- What `completeReconciliation` did: whether `Repo.StatusUpdate` was
called, the status value the runnable holds afterwards, and the error
returned to the runtime. -/
structure CompleteResult where
  statusWritten : Bool
  finalStatus : RunnableStatus
  returnedError : Option RecError
deriving DecidableEq, Repr

/-- `Reconciler.completeReconciliation`. `fin` is the pair returned by
`conditionManager.Finalize()` (finalised conditions, changed flag) —
the condition manager lives outside src/, so its result is taken as an
input. The status update is attempted iff the finalised conditions
changed, or the stored observedGeneration differs from the object's
generation, or the stored outputs differ (DeepEqual) from the computed
outputs; a failed update returns its own error, otherwise the incoming
error is returned iff it is unhandled. -/
def completeReconciliation (r : Runnable) (fin : List ConditionType × Bool)
    (outputs : Outputs) (err : Option Bool) (statusUpdateOk : Bool) : CompleteResult :=
  let st0 : RunnableStatus := { r.status with conditions := fin.1 }
  if fin.2 = true ∨ st0.observedGeneration ≠ r.generation ∨ st0.outputs ≠ outputs then
    let st1 : RunnableStatus :=
      { st0 with outputs := outputs, observedGeneration := r.generation }
    if statusUpdateOk then
      { statusWritten := true, finalStatus := st1, returnedError := finishErr err }
    else
      { statusWritten := true, finalStatus := st1,
        returnedError := some RecError.statusUpdateError }
  else
    { statusWritten := false, finalStatus := st0, returnedError := finishErr err }

/-- The conditions added and the error state after the realize step of
`Reconciler.Reconcile`: on success `RunTemplateReadyCondition` is
added and the error stays nil, on failure the type switch decides the
condition and the handledness. -/
def postRealizeError : Option RealizeError → List ConditionType × Option Bool
  | none => ([ConditionType.runTemplateReady], none)
  | some e =>
    let d := dispatchRealizeError e
    ([d.1], some d.2)

/-- The dynamic-tracker step: when a stamped object came back and
`DynamicTracker.Watch` fails, the error is replaced by an unhandled
tracking error; otherwise the error is left alone. -/
def applyTracking (stampedPresent trackingOk : Bool) (err : Option Bool) : Option Bool :=
  if stampedPresent && !trackingOk then some true else err

/-- The outcome of `Reconciler.Reconcile` from the realize step on:
the conditions added to the condition manager and the completion
result. -/
structure ReconcileOutcome where
  conditionsAdded : List ConditionType
  result : CompleteResult
deriving DecidableEq, Repr

/-- `Reconciler.Reconcile` from the `Realizer.Realize` call onward:
dispatch the realize error, run the tracking step, then complete. -/
def reconcileAfterRealize (r : Runnable) (realizeErr : Option RealizeError)
    (stampedPresent trackingOk : Bool) (fin : List ConditionType × Bool)
    (outputs : Outputs) (statusUpdateOk : Bool) : ReconcileOutcome :=
  let ce := postRealizeError realizeErr
  let err := applyTracking stampedPresent trackingOk ce.2
  { conditionsAdded := ce.1,
    result := completeReconciliation r fin outputs err statusUpdateOk }

/-- The service-account name the reconciler resolves before calling
`Repo.GetServiceAccountSecret`: start from "default" and override with
`spec.serviceAccountName` when that is non-empty. -/
def serviceAccountNameForRunnable (specName : String) : String :=
  if specName ≠ "" then specName else "default"

/-- The (name, namespace) key of the
`Repo.GetServiceAccountSecret(serviceAccountName, req.Namespace)`
call; the request namespace is the namespace the runnable was loaded
from. -/
def serviceAccountSecretLookupKey (r : Runnable) : String × String :=
  (serviceAccountNameForRunnable r.serviceAccountName, r.ns)

theorem mem_insertReq (rs : List Request) (a r : Request) :
    r ∈ insertReq rs a ↔ r ∈ rs ∨ r = a := by
  unfold insertReq
  split <;> simp_all

theorem mem_foldl_insertReq (l init : List Request) (r : Request) :
    r ∈ l.foldl insertReq init ↔ r ∈ init ∨ r ∈ l := by
  induction l generalizing init with
  | nil => simp
  | cons a t ih => simp [List.foldl_cons, ih, mem_insertReq]; tauto

theorem nodup_insertReq (rs : List Request) (a : Request) (h : rs.Nodup) :
    (insertReq rs a).Nodup := by
  unfold insertReq
  split
  · exact h
  · rename_i ha
    simp [List.nodup_append, h, ha]

theorem nodup_foldl_insertReq (l init : List Request) (h : init.Nodup) :
    (l.foldl insertReq init).Nodup := by
  induction l generalizing init with
  | nil => exact h
  | cons a t ih => exact ih _ (nodup_insertReq _ _ h)

theorem mem_clusterSupplyChainToWorkloads (cl : Cluster) (sc : ClusterSupplyChain)
    (w : Workload) :
    w ∈ clusterSupplyChainToWorkloads cl sc ↔
      w ∈ cl.workloads ∧ labelsMatch sc.selector w.labels = true ∧
        sc ∈ bestLabelMatches w cl.supplyChains := by
  simp only [clusterSupplyChainToWorkloads, List.mem_flatMap, List.mem_filter,
    List.mem_map, beq_iff_eq]
  aesop

theorem mem_serviceAccountToWorkloadRequests (cl : Cluster) (sa : ServiceAccount)
    (req : Request) :
    req ∈ serviceAccountToWorkloadRequests cl sa ↔
      req ∈ directWorkloadRequests cl sa ∨ req ∈ indirectWorkloadRequests cl sa := by
  simp [serviceAccountToWorkloadRequests, mem_foldl_insertReq]

theorem completeReconciliation_written_gen (r : Runnable) (fin : List ConditionType × Bool)
    (outputs : Outputs) (err : Option Bool) (ok : Bool) :
    (completeReconciliation r fin outputs err ok).statusWritten = true →
    (completeReconciliation r fin outputs err ok).finalStatus.observedGeneration
      = r.generation := by
  simp only [completeReconciliation]
  split
  · split <;> intro _ <;> rfl
  · intro h
    simp at h

/-- A supply chain with an empty selector and an empty
serviceAccountRef, as a cluster operator may legally create. -/
def permissiveSupplyChain : ClusterSupplyChain :=
  { name := "sc", selector := [], serviceAccountRef := { name := "", ns := "" } }

/-- A workload with no labels and no service account of its own. -/
def plainWorkload : Workload :=
  { name := "w", ns := "n", labels := [], serviceAccountName := "" }

/-- Cluster state for the failed-Get scenario. -/
def getFailureCluster : Cluster :=
  { supplyChains := [permissiveSupplyChain], workloads := [plainWorkload], roleBindings := [] }

/-- A role binding whose only subject is a service account. -/
def saRoleBinding : RoleBinding :=
  { name := "rb", ns := "n", roleRefApiGroup := "", roleRefKind := "Role", roleRefName := "r",
    subjects := [{ apiGroup := "", kind := "ServiceAccount", name := "sa", ns := "n" }] }

/-- A workload bound to the service account "sa" directly. -/
def saWorkload : Workload :=
  { name := "w", ns := "n", labels := [], serviceAccountName := "sa" }

/-- Two role bindings in the same namespace, both for role "r" and
both with the service-account subject "sa". -/
def dupRoleBinding1 : RoleBinding :=
  { name := "b1", ns := "n", roleRefApiGroup := "", roleRefKind := "Role", roleRefName := "r",
    subjects := [{ apiGroup := "", kind := "ServiceAccount", name := "sa", ns := "n" }] }

def dupRoleBinding2 : RoleBinding :=
  { dupRoleBinding1 with name := "b2" }

/-- Cluster state for the duplicate-requests scenario. -/
def dupCluster : Cluster :=
  { supplyChains := [], workloads := [saWorkload],
    roleBindings := [dupRoleBinding1, dupRoleBinding2] }

/-- A Get that succeeds exactly on the service account "sa" in "n". -/
def dupGet : String → String → Option ServiceAccount :=
  fun ns name =>
    if ns == "n" && name == "sa" then some { name := "sa", ns := "n" } else none

/-- A runnable at generation 1 whose status is still empty. -/
def sampleRunnable : Runnable :=
  { name := "r", ns := "n", generation := 1, serviceAccountName := "",
    status := { conditions := [], observedGeneration := 0, outputs := none } }

/-- The same runnable observed again at generation 2. -/
def sampleRunnableGen2 : Runnable :=
  { sampleRunnable with generation := 2 }

/-- A runnable that sets its own service account. -/
def sampleRunnableWithSA : Runnable :=
  { sampleRunnable with serviceAccountName := "my-sa" }

/-- An evaluator defined only at the path ".status.image". -/
def sampleEvaluator : Evaluator :=
  fun path content =>
    if path == ".status.image" then
      match content.lookup "image" with
      | some v => Except.ok v
      | none => Except.error "image not found"
    else Except.error "unknown path"

/-- C1: when the Runnable realizer returns an ApplyStampedObjectError,
the reconciler always adds the StampedObjectRejectedByAPIServer
condition; when the underlying cause is Forbidden it hands nil back to
the runtime (handled, no requeue through the error), for every other
cause it hands back an unhandled error that triggers a requeue. Stated
with a successful status update and a tracking step that does not
itself fail. -/
theorem applyStampedObjectError_forbidden_handled (r : Runnable) (forbidden : Bool)
    (sp tOk : Bool) (fin : List ConditionType × Bool) (outputs : Outputs)
    (htrack : (sp && !tOk) = false) :
    ConditionType.stampedObjectRejectedByAPIServer ∈
      (reconcileAfterRealize r (some (RealizeError.applyStampedObjectError forbidden))
        sp tOk fin outputs true).conditionsAdded ∧
    (reconcileAfterRealize r (some (RealizeError.applyStampedObjectError forbidden))
        sp tOk fin outputs true).result.returnedError =
      (if forbidden then none else some RecError.unhandled) := by
  simp only [reconcileAfterRealize, postRealizeError, dispatchRealizeError, applyTracking,
    htrack, if_false, Bool.false_eq_true, completeReconciliation]
  constructor
  · simp
  · split <;> cases forbidden <;> simp [finishErr]

theorem applyStampedObjectError_forbidden_handled_witness :
    ConditionType.stampedObjectRejectedByAPIServer ∈
      (reconcileAfterRealize sampleRunnable
        (some (RealizeError.applyStampedObjectError true))
        false true ([], false) none true).conditionsAdded ∧
    (reconcileAfterRealize sampleRunnable
        (some (RealizeError.applyStampedObjectError true))
        false true ([], false) none true).result.returnedError =
      (if true then none else some RecError.unhandled) :=
  applyStampedObjectError_forbidden_handled sampleRunnable true false true ([], false) none
    (by decide)

/-- C2: the status update is issued if and only if the finalised
conditions changed, or the stored observedGeneration differs from the
object's generation, or the freshly computed outputs differ from the
stored outputs under deep equality; otherwise no status write
happens. -/
theorem statusUpdate_iff_changed (r : Runnable) (fin : List ConditionType × Bool)
    (outputs : Outputs) (err : Option Bool) (ok : Bool) :
    (completeReconciliation r fin outputs err ok).statusWritten = true ↔
      (fin.2 = true ∨ r.status.observedGeneration ≠ r.generation ∨
        r.status.outputs ≠ outputs) := by
  simp only [completeReconciliation]
  split
  · split <;> simp_all
  · simp_all

/-- C3: on a ClusterSupplyChain change event the mapper enqueues
exactly the workloads whose labels match the chain's selector and for
which the changed chain is among the best label matches over all
supply chains; workloads whose best matches are all different chains
are excluded. -/
theorem clusterSupplyChainMapper_enqueues_exactly_best_matched (cl : Cluster)
    (sc : ClusterSupplyChain) (req : Request) :
    req ∈ clusterSupplyChainToWorkloadRequests cl sc ↔
      ∃ w, w ∈ cl.workloads ∧ labelsMatch sc.selector w.labels = true ∧
        sc ∈ bestLabelMatches w cl.supplyChains ∧ req = workloadRequest w := by
  simp only [clusterSupplyChainToWorkloadRequests, List.mem_map]
  constructor
  · rintro ⟨w, hw, rfl⟩
    rcases (mem_clusterSupplyChainToWorkloads cl sc w).mp hw with ⟨h1, h2, h3⟩
    exact ⟨w, h1, h2, h3, rfl⟩
  · rintro ⟨w, h1, h2, h3, rfl⟩
    exact ⟨w, (mem_clusterSupplyChainToWorkloads cl sc w).mpr ⟨h1, h2, h3⟩, rfl⟩

/-- C4: a request is produced for a ServiceAccount change event iff it
is a workload in the account's namespace naming the account directly,
or a workload best-matched by a supply chain whose serviceAccountRef
names the account, where the workload sets no service account of its
own and the reference's namespace equals the account's namespace (or
the reference's namespace is empty and the workload lives in the
account's namespace). -/
theorem serviceAccountMapper_direct_plus_indirect (cl : Cluster) (sa : ServiceAccount)
    (req : Request) :
    req ∈ serviceAccountToWorkloadRequests cl sa ↔
      (∃ w, w ∈ cl.workloads ∧ w.ns = sa.ns ∧ w.serviceAccountName = sa.name ∧
        req = workloadRequest w) ∨
      (∃ sc, sc ∈ cl.supplyChains ∧ sc.serviceAccountRef.name = sa.name ∧
        ∃ w, w ∈ cl.workloads ∧ labelsMatch sc.selector w.labels = true ∧
          sc ∈ bestLabelMatches w cl.supplyChains ∧ w.serviceAccountName = "" ∧
          (sc.serviceAccountRef.ns = sa.ns ∨
            (sc.serviceAccountRef.ns = "" ∧ w.ns = sa.ns)) ∧
          req = workloadRequest w) := by
  rw [mem_serviceAccountToWorkloadRequests]
  constructor
  · rintro (hd | hi)
    · left
      simp only [directWorkloadRequests, List.mem_map, List.mem_filter, Bool.and_eq_true,
        beq_iff_eq] at hd
      rcases hd with ⟨w, ⟨hw, hns, hsa⟩, rfl⟩
      exact ⟨w, hw, hns, hsa, rfl⟩
    · right
      simp only [indirectWorkloadRequests, serviceAccountToSupplyChains, List.mem_flatMap,
        List.mem_filter, List.mem_map, Bool.and_eq_true, Bool.or_eq_true, beq_iff_eq] at hi
      rcases hi with ⟨sc, ⟨hsc, hname⟩, w, ⟨hwmem, hempty, hns⟩, rfl⟩
      rcases (mem_clusterSupplyChainToWorkloads cl sc w).mp hwmem with ⟨h1, h2, h3⟩
      exact ⟨sc, hsc, hname, w, h1, h2, h3, hempty, hns, rfl⟩
  · rintro (⟨w, hw, hns, hsa, rfl⟩ | ⟨sc, hsc, hname, w, h1, h2, h3, hempty, hns, rfl⟩)
    · left
      simp only [directWorkloadRequests, List.mem_map, List.mem_filter, Bool.and_eq_true,
        beq_iff_eq]
      exact ⟨w, ⟨hw, hns, hsa⟩, rfl⟩
    · right
      simp only [indirectWorkloadRequests, serviceAccountToSupplyChains, List.mem_flatMap,
        List.mem_filter, List.mem_map, Bool.and_eq_true, Bool.or_eq_true, beq_iff_eq]
      exact ⟨sc, ⟨hsc, hname⟩, w,
        ⟨(mem_clusterSupplyChainToWorkloads cl sc w).mpr ⟨h1, h2, h3⟩, hempty, hns⟩, rfl⟩

/-- C5: GetOutput on a ClusterImageTemplate returns an Output whose
Image is the JSONPath evaluation of `spec.imagePath` against the
stamped object's content, and on evaluation failure returns no Output
and an error carrying the failing JSONPath expression. -/
theorem clusterImageTemplate_getOutput_image_or_jsonPathError (imagePath : String)
    (eval : Evaluator) (stamped : StampedContent) :
    (∀ v, eval imagePath stamped = Except.ok v →
      clusterImageTemplateGetOutput imagePath eval stamped = Except.ok { image := v }) ∧
    (∀ e, eval imagePath stamped = Except.error e →
      clusterImageTemplateGetOutput imagePath eval stamped =
        Except.error { err := e, expression := imagePath }) := by
  constructor <;> intro x hx <;> simp [clusterImageTemplateGetOutput, hx]

theorem clusterImageTemplate_getOutput_image_or_jsonPathError_witness :
    clusterImageTemplateGetOutput ".status.image" sampleEvaluator [("image", "reg/x")] =
      Except.ok { image := "reg/x" } ∧
    clusterImageTemplateGetOutput ".status.image" sampleEvaluator [] =
      Except.error { err := "image not found", expression := ".status.image" } :=
  ⟨(clusterImageTemplate_getOutput_image_or_jsonPathError ".status.image" sampleEvaluator
      [("image", "reg/x")]).1 "reg/x" (by rfl),
   (clusterImageTemplate_getOutput_image_or_jsonPathError ".status.image" sampleEvaluator
      []).2 "image not found" (by rfl)⟩

/-- C6: evaluation of `RoleBindingToWorkloadRequests` at a failed
service-account Get. The claim says every mapper function returns an
empty result when a backing client call fails; here the Get fails,
the code only logs and keeps the zero-valued service account, and the
result is non-empty. -/
theorem roleBindingMapper_get_failure_returns_nonEmpty :
    roleBindingToWorkloadRequests getFailureCluster (fun _ _ => none) saRoleBinding =
      [{ name := "w", ns := "n" }] := by decide

/-- C7 counterexample: `RoleToWorkloadRequests` concatenates the
per-binding request lists without deduplication, so two bindings for
the same role and the same service-account subject yield the same
request twice. -/
theorem roleToWorkloadRequests_duplicate_requests :
    ¬ (roleToWorkloadRequests dupCluster dupGet { name := "r", ns := "n" }).Nodup := by
  decide

/-- C7 as amended: the mapper functions that accumulate into the
request set — `ServiceAccountToWorkloadRequests` and its analogues —
never return duplicate requests; the Role and ClusterRole resolvers
concatenate per-binding results and may duplicate. -/
theorem serviceAccountToWorkloadRequests_noDuplicates (cl : Cluster) (sa : ServiceAccount) :
    (serviceAccountToWorkloadRequests cl sa).Nodup :=
  nodup_foldl_insertReq _ _ List.nodup_nil

/-- C8 counterexample: a concrete reconcile where the realizer fails
with GetRunTemplateError. The template-missing condition is added but
the error returned to the runtime is the unhandled one, not nil, so
the runtime requeues with exponential backoff. -/
theorem getRunTemplateError_not_nil_counterexample :
    (reconcileAfterRealize sampleRunnable (some RealizeError.getRunTemplateError)
        false true ([], false) none true).conditionsAdded =
      [ConditionType.runTemplateMissing] ∧
    (reconcileAfterRealize sampleRunnable (some RealizeError.getRunTemplateError)
        false true ([], false) none true).result.returnedError ≠ none := by
  decide

/-- C8 as amended: when the Runnable realizer fails to look up the
referenced run template, the reconciler surfaces the template-missing
condition and returns an unhandled error to the runtime (requeue with
exponential backoff), regardless of the tracking step, provided the
status update succeeds. -/
theorem getRunTemplateError_surfaces_and_requeues (r : Runnable) (sp tOk : Bool)
    (fin : List ConditionType × Bool) (outputs : Outputs) :
    ConditionType.runTemplateMissing ∈
      (reconcileAfterRealize r (some RealizeError.getRunTemplateError)
        sp tOk fin outputs true).conditionsAdded ∧
    (reconcileAfterRealize r (some RealizeError.getRunTemplateError)
        sp tOk fin outputs true).result.returnedError = some RecError.unhandled := by
  simp only [reconcileAfterRealize, postRealizeError, dispatchRealizeError, applyTracking,
    completeReconciliation]
  constructor
  · simp
  · split
    · split <;> simp_all [finishErr]
    · simp [finishErr]

/-- C9: whenever `completeReconciliation` writes status, the written
observedGeneration is the loaded object's generation, so two writes
whose loaded generations do not decrease write non-decreasing
observedGenerations. -/
theorem observedGeneration_written_and_monotone (r1 r2 : Runnable)
    (fin1 fin2 : List ConditionType × Bool) (o1 o2 : Outputs) (e1 e2 : Option Bool)
    (ok1 ok2 : Bool)
    (hg : r1.generation ≤ r2.generation)
    (h1 : (completeReconciliation r1 fin1 o1 e1 ok1).statusWritten = true)
    (h2 : (completeReconciliation r2 fin2 o2 e2 ok2).statusWritten = true) :
    (completeReconciliation r1 fin1 o1 e1 ok1).finalStatus.observedGeneration =
      r1.generation ∧
    (completeReconciliation r2 fin2 o2 e2 ok2).finalStatus.observedGeneration =
      r2.generation ∧
    (completeReconciliation r1 fin1 o1 e1 ok1).finalStatus.observedGeneration ≤
      (completeReconciliation r2 fin2 o2 e2 ok2).finalStatus.observedGeneration := by
  have g1 := completeReconciliation_written_gen r1 fin1 o1 e1 ok1 h1
  have g2 := completeReconciliation_written_gen r2 fin2 o2 e2 ok2 h2
  exact ⟨g1, g2, by rw [g1, g2]; exact hg⟩

theorem observedGeneration_written_and_monotone_witness :
    (completeReconciliation sampleRunnable ([], false) none none true).finalStatus.observedGeneration =
      sampleRunnable.generation ∧
    (completeReconciliation sampleRunnableGen2 ([], false) none none true).finalStatus.observedGeneration =
      sampleRunnableGen2.generation ∧
    (completeReconciliation sampleRunnable ([], false) none none true).finalStatus.observedGeneration ≤
      (completeReconciliation sampleRunnableGen2 ([], false) none none true).finalStatus.observedGeneration :=
  observedGeneration_written_and_monotone sampleRunnable sampleRunnableGen2
    ([], false) ([], false) none none none none true true
    (by decide) (by decide) (by decide)

/-- C10: the Runnable reconciler resolves the service-account secret
for the account named "default" in the runnable's namespace when
`spec.serviceAccountName` is empty, and for the named account in that
namespace otherwise. -/
theorem runnable_serviceAccount_default_or_named (r : Runnable) :
    (r.serviceAccountName = "" → serviceAccountSecretLookupKey r = ("default", r.ns)) ∧
    (r.serviceAccountName ≠ "" →
      serviceAccountSecretLookupKey r = (r.serviceAccountName, r.ns)) := by
  constructor <;> intro h <;>
    simp [serviceAccountSecretLookupKey, serviceAccountNameForRunnable, h]

theorem runnable_serviceAccount_default_or_named_witness :
    serviceAccountSecretLookupKey sampleRunnable = ("default", sampleRunnable.ns) ∧
    serviceAccountSecretLookupKey sampleRunnableWithSA =
      (sampleRunnableWithSA.serviceAccountName, sampleRunnableWithSA.ns) :=
  ⟨(runnable_serviceAccount_default_or_named sampleRunnable).1 (by decide),
   (runnable_serviceAccount_default_or_named sampleRunnableWithSA).2 (by decide)⟩
